import Mathlib

/-!
Shallow embedding of the drag-and-drop project tracker (src/src/app.ts):
the project data model, the observer-pattern state store (`ProjectState`),
the `validate` function, the form-submission pipeline (`gatherUserInput`,
`submitHandler`), and the list/item rendering logic (`ProjectList`,
`ProjectItem`), followed by theorems settling the frozen claims about them.

Modelling conventions:
* JavaScript arrays of projects / listeners become Lean lists; a mutation
  by push becomes appending, and the defensive copy taken by
  `this.projects.slice()` becomes the list value passed in a notification
  event.
* `Math.random().toString()` (the id generator) is modelled as an explicit
  string parameter supplied to `addProject`.
* JS numbers occurring in this program are integers (people counts and
  bounds), modelled as `Int`; the result of unary plus on a non-numeric
  string is the distinguished value `JSValue.nan`.
* Listener callbacks (closures over list components) are modelled as
  opaque identifiers; a call to a listener is the pair (identifier,
  snapshot delivered) in the event list that `addProject` produces, in
  invocation order.
-/

/-- Mirrors the TS enum ProjectStatus { Active, Finished }. -/
inductive ProjectStatus where
  | Active
  | Finished
deriving DecidableEq, Inhabited

/-- Mirrors class Project { id, title, description, people, status }. -/
structure Project where
  id : String
  title : String
  description : String
  people : Int
  status : ProjectStatus
deriving DecidableEq, Inhabited

/-- Opaque identifier standing for one registered listener callback. -/
abbrev ListenerId := Nat

/-- Mirrors the singleton ProjectState (State base class folded in):
`listeners` is the registration-ordered listener array, `projects` the
internal project array. -/
structure ProjectState where
  listeners : List ListenerId
  projects : List Project
deriving DecidableEq

/-- Mirrors State.addListener: this.listeners.push(listenerFn). -/
def ProjectState.addListener (s : ProjectState) (l : ListenerId) : ProjectState :=
  { s with listeners := s.listeners ++ [l] }

/-- Mirrors ProjectState.addProject: constructs a new Project with the
generated id and status Active, pushes it, then calls every listener with
this.projects.slice(). The returned list records each listener invocation,
in order, with the snapshot it received. -/
def ProjectState.addProject (s : ProjectState) (newId title description : String)
    (people : Int) : ProjectState × List (ListenerId × List Project) :=
  let newProject : Project := ⟨newId, title, description, people, ProjectStatus.Active⟩
  let projects := s.projects ++ [newProject]
  ({ s with projects := projects },
   s.listeners.map (fun l => (l, projects)))

/-- A JS value stored in Validatable.value: a string, a (numeric) number,
or NaN (result of unary plus on a non-numeric string). -/
inductive JSValue where
  | str (s : String)
  | num (n : Int)
  | nan
deriving DecidableEq

/-- Mirrors interface Validatable (all fields optional). -/
structure Validatable where
  value : Option JSValue := none
  required : Option Bool := none
  minLength : Option Int := none
  maxLength : Option Int := none
  min : Option Int := none
  max : Option Int := none
deriving DecidableEq

/-- JS .toString() on the values that can occur in Validatable.value. -/
def JSValue.toStr : JSValue → String
  | .str s => s
  | .num n => toString n
  | .nan => "NaN"

/-- Model of JS String.prototype.trim(): strip leading and trailing
whitespace (structurally recursive so that concrete instances reduce). -/
def jsTrim (s : String) : String :=
  String.mk (((s.data.dropWhile Char.isWhitespace).reverse.dropWhile
    Char.isWhitespace).reverse)

/-- Mirrors stringValue = validatableInput.value?.toString() || "":
undefined value yields "", otherwise the value's string form (the || ""
only replaces the empty string by itself, so it is the identity here). -/
def stringValue (v : Validatable) : String :=
  match v.value with
  | none => ""
  | some jv => jv.toStr

/-- typeof validatableInput.value === "string". -/
def isStringValue (v : Validatable) : Bool :=
  match v.value with
  | some (.str _) => true
  | _ => false

/-- The clause guarded by if (validatableInput.required):
isValid && stringValue.trim().length !== 0. JS truthiness of the optional
boolean field means the guard holds exactly when required = some true. -/
def requiredCheck (v : Validatable) : Bool :=
  if v.required = some true then decide ((jsTrim (stringValue v)).length ≠ 0)
  else true

/-- The clause guarded by minLength != null && typeof value === "string":
isValid && stringValue.length > minLength (strict, the source's defect;
under the guard, stringValue is exactly the string stored in value). -/
def minLengthCheck (v : Validatable) : Bool :=
  match v.minLength, v.value with
  | some ml, some (.str s) => decide ((s.length : Int) > ml)
  | _, _ => true

/-- The clause guarded by maxLength != null && typeof value === "string":
isValid && stringValue.length > maxLength — the source compares with >
against maxLength as well (inverted polarity). -/
def maxLengthCheck (v : Validatable) : Bool :=
  match v.maxLength, v.value with
  | some ml, some (.str s) => decide ((s.length : Int) > ml)
  | _, _ => true

/-- The clause guarded by min != null && typeof value === "number":
isValid && value >= min. NaN is a number in JS and every comparison with
it is false. -/
def minCheck (v : Validatable) : Bool :=
  match v.min, v.value with
  | some lo, some (.num n) => decide (n ≥ lo)
  | some _, some .nan => false
  | _, _ => true

/-- The clause guarded by max != null && typeof value === "number":
isValid && value <= max; false for NaN. -/
def maxCheck (v : Validatable) : Bool :=
  match v.max, v.value with
  | some hi, some (.num n) => decide (n ≤ hi)
  | some _, some .nan => false
  | _, _ => true

/-- Mirrors function validate(validatableInput): starts with isValid =
true and conjoins each guarded clause in source order; the sequential
isValid = isValid && clause accumulation is exactly this conjunction. -/
def validate (v : Validatable) : Bool :=
  requiredCheck v && minLengthCheck v && maxLengthCheck v && minCheck v && maxCheck v

/-- The three form fields read by ProjectInput (people as the raw string
of the numeric input). -/
structure FormFields where
  title : String
  description : String
  people : String
deriving DecidableEq

/-- All-decimal-digit run accumulated left to right. -/
def parseDigitsAux : List Char → Nat → Option Nat
  | [], acc => some acc
  | c :: cs, acc =>
      if c.isDigit then parseDigitsAux cs (acc * 10 + (c.toNat - 48)) else none

/-- A non-empty all-digit character list parsed as a natural number. -/
def parseDigits : List Char → Option Nat
  | [] => none
  | c :: cs => parseDigitsAux (c :: cs) 0

/-- JS unary plus (+people) on the integer-literal strings this form
produces: whitespace-only input coerces to 0, an optionally signed
integer literal to its value, anything else to NaN. -/
def jsUnaryPlus (s : String) : JSValue :=
  match (jsTrim s).data with
  | [] => .num 0
  | '-' :: rest =>
      match parseDigits rest with
      | some n => .num (-(n : Int))
      | none => .nan
  | '+' :: rest =>
      match parseDigits rest with
      | some n => .num (n : Int)
      | none => .nan
  | cs =>
      match parseDigits cs with
      | some n => .num (n : Int)
      | none => .nan

/-- Extract the Int of a numeric JSValue (only used where validation has
already ruled out strings and NaN). -/
def JSValue.toIntVal : JSValue → Int
  | .num n => n
  | _ => 0

/-- Mirrors titleValidation = { value: title, required: true }. -/
def titleValidation (f : FormFields) : Validatable :=
  { value := some (.str f.title), required := some true }

/-- Mirrors descriptionValidation = { value, required: true, minLength: 5 }. -/
def descriptionValidation (f : FormFields) : Validatable :=
  { value := some (.str f.description), required := some true, minLength := some 5 }

/-- Mirrors peopleValidation = { value: +people, required: true, min: 1, max: 5 }. -/
def peopleValidation (f : FormFields) : Validatable :=
  { value := some (jsUnaryPlus f.people), required := some true,
    min := some 1, max := some 5 }

/-- The literal alert text shown on validation failure. -/
def invalidInputAlert : String := "Invalid input, please try again"

/-- Mirrors ProjectInput.gatherUserInput: validates the three fields; on
failure alerts and returns void (none plus the alert event), on success
returns the tuple [title, description, +people]. -/
def gatherUserInput (f : FormFields) :
    Option (String × String × Int) × List String :=
  if !(validate (titleValidation f)) || !(validate (descriptionValidation f)) ||
      !(validate (peopleValidation f)) then
    (none, [invalidInputAlert])
  else
    (some (f.title, f.description, (jsUnaryPlus f.people).toIntVal), [])

/-- Mirrors ProjectInput.clearInputs: all three fields set to "". -/
def clearInputs (_f : FormFields) : FormFields := ⟨"", "", ""⟩

/-- The application state a submit event touches: the store, the three
input fields, and the log of alert messages shown so far. -/
structure AppState where
  store : ProjectState
  fields : FormFields
  alerts : List String
deriving DecidableEq

/-- Mirrors ProjectInput.submitHandler: gathers user input; if it is a
tuple (Array.isArray), forwards it to projectState.addProject and clears
the inputs, otherwise only the alert from gatherUserInput happened.
The id generated inside addProject is the explicit newId parameter. -/
def submitHandler (st : AppState) (newId : String) : AppState :=
  match gatherUserInput st.fields with
  | (some (title, description, people), a) =>
      { store := (st.store.addProject newId title description people).fst,
        fields := clearInputs st.fields,
        alerts := st.alerts ++ a }
  | (none, a) => { st with alerts := st.alerts ++ a }

/-- The "active" | "finished" union type parameterizing ProjectList. -/
inductive ListType where
  | active
  | finished
deriving DecidableEq

/-- Mirrors the filter inside the listener ProjectList.configure
registers: keep the records whose status matches the list's type. -/
def relevantProjects (t : ListType) (projects : List Project) : List Project :=
  projects.filter (fun project =>
    match t with
    | .active => decide (project.status = ProjectStatus.Active)
    | .finished => decide (project.status = ProjectStatus.Finished))

/-- The render-relevant state of one ProjectList component. -/
structure ProjectListC where
  type : ListType
  assignedProjects : List Project
deriving DecidableEq

/-- The body of the listener registered in ProjectList.configure:
this.assignedProjects = relevantProjects (renderProjects then repaints
from assignedProjects alone). -/
def ProjectListC.onNotify (c : ProjectListC) (projects : List Project) : ProjectListC :=
  { c with assignedProjects := relevantProjects c.type projects }

/-- Mirrors the ProjectItem.persons getter:
people === 1 ? "1 Person" : people + " Persons". -/
def ProjectItem.persons (project : Project) : String :=
  if project.people = 1 then "1 Person" else toString project.people ++ " Persons"

/-- The DOM content one ProjectItem render unit writes: the element id set
from project.id, the h2 (title), h3 (persons + " assigned") and paragraph
(description) text. -/
structure RenderedItem where
  elemId : String
  h2 : String
  h3 : String
  para : String
deriving DecidableEq

/-- Mirrors ProjectItem.renderContent plus the id assignment done by the
Component constructor. -/
def renderProjectItem (project : Project) : RenderedItem :=
  ⟨project.id, project.title, ProjectItem.persons project ++ " assigned",
   project.description⟩

/-- Mirrors ProjectList.renderProjects: clears the list element and
creates one ProjectItem per assigned project, in order (wholesale
replacement: the result depends only on assignedProjects). -/
def ProjectListC.renderProjects (c : ProjectListC) : List RenderedItem :=
  c.assignedProjects.map renderProjectItem

/-- Mirrors ProjectList.dropHandler, whose body is empty: it performs no
state transition on the store. -/
def ProjectList.dropHandler (s : ProjectState) : ProjectState := s

/-- The store states reachable through the exposed operations: the fresh
singleton (empty lists), addListener, addProject, and the no-op drop
handler. -/
inductive Reachable : ProjectState → Prop where
  | init : Reachable ⟨[], []⟩
  | step_addListener {s : ProjectState} {l : ListenerId} :
      Reachable s → Reachable (s.addListener l)
  | step_addProject {s : ProjectState} {newId title description : String} {people : Int} :
      Reachable s → Reachable (s.addProject newId title description people).fst
  | step_drop {s : ProjectState} :
      Reachable s → Reachable (ProjectList.dropHandler s)

/-- Claim C1: every call to ProjectState.addProject appends exactly one
new Project record, with status Active and the freshly generated
identifier, to the end of the internal project list; the length increases
by exactly one and every previously stored record is unchanged and keeps
its position. -/
theorem addProject_appends_one (s : ProjectState) (newId title description : String)
    (people : Int) :
    (s.addProject newId title description people).fst.projects
      = s.projects ++ [⟨newId, title, description, people, ProjectStatus.Active⟩] ∧
    (s.addProject newId title description people).fst.projects.length
      = s.projects.length + 1 ∧
    (s.addProject newId title description people).fst.projects.take s.projects.length
      = s.projects := by
  refine ⟨rfl, ?_, ?_⟩
  · simp [ProjectState.addProject]
  · simp [ProjectState.addProject]

/-- Claim C2: addListener registers listeners in order; addProject
notifies every registered listener, in registration order, with a
snapshot equal to the full updated list; and a snapshot delivered by one
call is a fixed value distinct from the store contents after a subsequent
addProject (copy, not alias). -/
theorem addProject_notifies_in_order (s : ProjectState)
    (id1 t1 d1 : String) (p1 : Int) (id2 t2 d2 : String) (p2 : Int) :
    (∀ l : ListenerId, (s.addListener l).listeners = s.listeners ++ [l]) ∧
    (s.addProject id1 t1 d1 p1).snd
      = s.listeners.map
          (fun l => (l, s.projects ++ [⟨id1, t1, d1, p1, ProjectStatus.Active⟩])) ∧
    ∀ e ∈ (s.addProject id1 t1 d1 p1).snd,
      e.snd = s.projects ++ [⟨id1, t1, d1, p1, ProjectStatus.Active⟩] ∧
      e.snd ≠ ((s.addProject id1 t1 d1 p1).fst.addProject id2 t2 d2 p2).fst.projects := by
  refine ⟨fun l => rfl, rfl, ?_⟩
  intro e he
  simp only [ProjectState.addProject, List.mem_map] at he
  obtain ⟨l, _, rfl⟩ := he
  refine ⟨rfl, fun hcontra => ?_⟩
  have hlen := congrArg List.length hcontra
  simp [ProjectState.addProject] at hlen

/-- Witness for C2 at a store with one listener and one prior call. -/
theorem addProject_notifies_in_order_witness :
    ((7, [Project.mk "a" "t" "d" 1 ProjectStatus.Active])
        ∈ (ProjectState.addProject ⟨[7], []⟩ "a" "t" "d" 1).snd) ∧
    ([Project.mk "a" "t" "d" 1 ProjectStatus.Active]
        ≠ ((ProjectState.addProject ⟨[7], []⟩ "a" "t" "d" 1).fst.addProject
            "b" "u" "e" 2).fst.projects) := by
  have h := addProject_notifies_in_order ⟨[7], []⟩ "a" "t" "d" 1 "b" "u" "e" 2
  exact ⟨by decide, (h.2.2 (7, [Project.mk "a" "t" "d" 1 ProjectStatus.Active])
    (by decide)).2⟩

/-- Claim C3: validate compares string lengths with strict > against both
configured bounds, so a string whose length exactly equals minLength is
rejected, and one whose length exactly equals maxLength is rejected too. -/
theorem validate_rejects_exact_length_bounds (v : Validatable) (s : String)
    (hv : v.value = some (JSValue.str s)) :
    (v.minLength = some (s.length : Int) → validate v = false) ∧
    (v.maxLength = some (s.length : Int) → validate v = false) := by
  constructor
  · intro hm
    have h1 : minLengthCheck v = false := by simp [minLengthCheck, hv, hm]
    simp [validate, h1]
  · intro hm
    have h1 : maxLengthCheck v = false := by simp [maxLengthCheck, hv, hm]
    simp [validate, h1]

/-- Witness for C3: "hello" (length 5) against minLength 5 and against
maxLength 5 is invalid in both configurations. -/
theorem validate_rejects_exact_length_bounds_witness :
    validate { value := some (JSValue.str "hello"), required := some true,
               minLength := some 5 } = false ∧
    validate { value := some (JSValue.str "hello"), maxLength := some 5 } = false := by
  have h1 := validate_rejects_exact_length_bounds
    { value := some (JSValue.str "hello"), required := some true,
      minLength := some 5 } "hello" rfl
  have h2 := validate_rejects_exact_length_bounds
    { value := some (JSValue.str "hello"), maxLength := some 5 } "hello" rfl
  exact ⟨h1.1 (by decide), h2.2 (by decide)⟩

/-- Claim C4: the maxLength conjunct is satisfied exactly when the string
is strictly longer than maxLength: a longer string is never rejected by
that check, while every string of length at most maxLength fails it. -/
theorem maxLength_polarity_inverted (v : Validatable) (s : String) (m : Int)
    (hv : v.value = some (JSValue.str s)) (hm : v.maxLength = some m) :
    ((s.length : Int) > m → maxLengthCheck v = true) ∧
    ((s.length : Int) ≤ m → maxLengthCheck v = false) ∧
    (maxLengthCheck v = true ↔ (s.length : Int) > m) := by
  have h : maxLengthCheck v = decide ((s.length : Int) > m) := by
    simp [maxLengthCheck, hv, hm]
  refine ⟨fun hgt => by simp [h, hgt], fun hle => by simp [h]; omega, by simp [h]⟩

/-- Witness for C4: "abcdef" (length 6) passes the maxLength-5 conjunct,
"abc" (length 3) fails it. -/
theorem maxLength_polarity_inverted_witness :
    maxLengthCheck { value := some (JSValue.str "abcdef"), maxLength := some 5 } = true ∧
    maxLengthCheck { value := some (JSValue.str "abc"), maxLength := some 5 } = false := by
  have h1 := maxLength_polarity_inverted
    { value := some (JSValue.str "abcdef"), maxLength := some 5 } "abcdef" 5 rfl rfl
  have h2 := maxLength_polarity_inverted
    { value := some (JSValue.str "abc"), maxLength := some 5 } "abc" 5 rfl rfl
  exact ⟨h1.1 (by decide), h2.2.1 (by decide)⟩

/-- Claim C5: numeric bounds are inclusive: a value strictly below min or
strictly above max makes validate false, and a value exactly equal to the
single configured bound validates as true. -/
theorem validate_numeric_bounds_inclusive (v : Validatable) (n lo hi : Int) :
    (v.value = some (JSValue.num n) → v.min = some lo → n < lo → validate v = false) ∧
    (v.value = some (JSValue.num n) → v.max = some hi → hi < n → validate v = false) ∧
    validate { value := some (JSValue.num n), min := some n } = true ∧
    validate { value := some (JSValue.num n), max := some n } = true := by
  refine ⟨?_, ?_, ?_, ?_⟩
  · intro hv hmin hlt
    have h1 : minCheck v = false := by simp [minCheck, hv, hmin]; omega
    simp [validate, h1]
  · intro hv hmax hlt
    have h1 : maxCheck v = false := by simp [maxCheck, hv, hmax]; omega
    simp [validate, h1]
  · simp [validate, requiredCheck, minLengthCheck, maxLengthCheck, minCheck, maxCheck]
  · simp [validate, requiredCheck, minLengthCheck, maxLengthCheck, minCheck, maxCheck]

/-- Witness for C5: 0 against min 1 and 6 against max 5 are invalid;
5 against min 5 and 5 against max 5 are valid. -/
theorem validate_numeric_bounds_inclusive_witness :
    validate { value := some (JSValue.num 0), min := some 1 } = false ∧
    validate { value := some (JSValue.num 6), max := some 5 } = false ∧
    validate { value := some (JSValue.num 5), min := some 5 } = true ∧
    validate { value := some (JSValue.num 5), max := some 5 } = true := by
  have h1 := validate_numeric_bounds_inclusive
    { value := some (JSValue.num 0), min := some 1 } 0 1 0
  have h2 := validate_numeric_bounds_inclusive
    { value := some (JSValue.num 6), max := some 5 } 6 0 5
  have h3 := validate_numeric_bounds_inclusive
    { value := some (JSValue.num 5), min := some 5 } 5 5 5
  exact ⟨h1.1 rfl rfl (by decide), h2.2.1 rfl rfl (by decide), h3.2.2.1, h3.2.2.2⟩

/-- Claim C6 counterexample: " " is a non-empty string and required is the
only configured constraint, yet validate rejects it — the code tests the
trimmed length, so the claim "a non-empty string is valid when no other
constraint is configured" is false as stated. -/
theorem required_nonempty_string_rejected :
    (" " : String) ≠ "" ∧
    validate { value := some (JSValue.str " "), required := some true } = false := by
  exact ⟨by decide, by decide⟩

/-- Claim C6 amended: with required configured, an empty string is
invalid, and a string that is non-empty after trimming whitespace is
valid when no other constraint is configured. -/
theorem required_check_trim_semantics (s : String) :
    validate { value := some (JSValue.str ""), required := some true } = false ∧
    ((jsTrim s).length ≠ 0 →
      validate { value := some (JSValue.str s), required := some true } = true) := by
  constructor
  · decide
  · intro h
    simp [validate, requiredCheck, minLengthCheck, maxLengthCheck, minCheck,
      maxCheck, stringValue, JSValue.toStr, h]

/-- Witness for the amended C6 at the non-blank string "x". -/
theorem required_check_trim_semantics_witness :
    validate { value := some (JSValue.str ""), required := some true } = false ∧
    validate { value := some (JSValue.str "x"), required := some true } = true := by
  have h := required_check_trim_semantics "x"
  exact ⟨h.1, h.2 (by decide)⟩

/-- Claim C7: whenever one of the three field validations fails, the
submit handler leaves the store unchanged, leaves the three input fields
unchanged, and appends exactly the blocking alert with the literal text
"Invalid input, please try again". -/
theorem submitHandler_invalid_aborts (st : AppState) (newId : String)
    (h : validate (titleValidation st.fields) = false ∨
         validate (descriptionValidation st.fields) = false ∨
         validate (peopleValidation st.fields) = false) :
    (submitHandler st newId).store = st.store ∧
    (submitHandler st newId).fields = st.fields ∧
    (submitHandler st newId).alerts = st.alerts ++ ["Invalid input, please try again"] := by
  have hg : gatherUserInput st.fields = (none, [invalidInputAlert]) := by
    unfold gatherUserInput
    rcases h with h | h | h <;> simp [h]
  simp [submitHandler, hg, invalidInputAlert]

/-- Witness for C7: description "hi" (length 2 against minLength 5) is
rejected; nothing is stored, fields stay, the alert is logged. -/
theorem submitHandler_invalid_aborts_witness :
    (submitHandler ⟨⟨[], []⟩, ⟨"t", "hi", "3"⟩, []⟩ "0.1").store = ProjectState.mk [] [] ∧
    (submitHandler ⟨⟨[], []⟩, ⟨"t", "hi", "3"⟩, []⟩ "0.1").fields = FormFields.mk "t" "hi" "3" ∧
    (submitHandler ⟨⟨[], []⟩, ⟨"t", "hi", "3"⟩, []⟩ "0.1").alerts
      = [] ++ ["Invalid input, please try again"] :=
  submitHandler_invalid_aborts ⟨⟨[], []⟩, ⟨"t", "hi", "3"⟩, []⟩ "0.1"
    (Or.inr (Or.inl (by decide)))

/-- Claim C8: on a notification each list component ends up rendering
exactly the status-matching subset of the snapshot, wholesale, one render
unit per matching record; a project just appended by addProject (status
Active) is assigned to the "active" component, appears among its rendered
items, and is not assigned to the "finished" component. -/
theorem lists_render_filtered_by_status (cA cF : ProjectListC)
    (snapshot : List Project)
    (hA : cA.type = ListType.active) (hF : cF.type = ListType.finished) :
    (cA.onNotify snapshot).renderProjects
      = (snapshot.filter (fun p => decide (p.status = ProjectStatus.Active))).map
          renderProjectItem ∧
    (cF.onNotify snapshot).renderProjects
      = (snapshot.filter (fun p => decide (p.status = ProjectStatus.Finished))).map
          renderProjectItem ∧
    ∀ (s : ProjectState) (newId title description : String) (people : Int),
      snapshot = (s.addProject newId title description people).fst.projects →
      ((⟨newId, title, description, people, ProjectStatus.Active⟩ : Project)
          ∈ (cA.onNotify snapshot).assignedProjects ∧
       renderProjectItem ⟨newId, title, description, people, ProjectStatus.Active⟩
          ∈ (cA.onNotify snapshot).renderProjects ∧
       (⟨newId, title, description, people, ProjectStatus.Active⟩ : Project)
          ∉ (cF.onNotify snapshot).assignedProjects) := by
  refine ⟨?_, ?_, ?_⟩
  · simp [ProjectListC.onNotify, ProjectListC.renderProjects, relevantProjects, hA]
  · simp [ProjectListC.onNotify, ProjectListC.renderProjects, relevantProjects, hF]
  · intro s newId title description people hsnap
    subst hsnap
    have hmemA : (⟨newId, title, description, people, ProjectStatus.Active⟩ : Project)
        ∈ (cA.onNotify (s.addProject newId title description people).fst.projects).assignedProjects := by
      simp [ProjectListC.onNotify, relevantProjects, hA, ProjectState.addProject,
        List.mem_filter]
    refine ⟨hmemA, ?_, ?_⟩
    · exact List.mem_map_of_mem renderProjectItem hmemA
    · simp [ProjectListC.onNotify, relevantProjects, hF, ProjectState.addProject,
        List.mem_filter]

/-- Witness for C8: the project appended to an empty store is assigned to
the active component and not to the finished one. -/
theorem lists_render_filtered_by_status_witness :
    (Project.mk "a" "T" "D" 3 ProjectStatus.Active)
      ∈ ((ProjectListC.mk ListType.active []).onNotify
          (ProjectState.addProject ⟨[], []⟩ "a" "T" "D" 3).fst.projects).assignedProjects ∧
    (Project.mk "a" "T" "D" 3 ProjectStatus.Active)
      ∉ ((ProjectListC.mk ListType.finished []).onNotify
          (ProjectState.addProject ⟨[], []⟩ "a" "T" "D" 3).fst.projects).assignedProjects := by
  have h := lists_render_filtered_by_status (ProjectListC.mk ListType.active [])
    (ProjectListC.mk ListType.finished [])
    (ProjectState.addProject ⟨[], []⟩ "a" "T" "D" 3).fst.projects rfl rfl
  have h3 := h.2.2 ⟨[], []⟩ "a" "T" "D" 3 rfl
  exact ⟨h3.1, h3.2.2⟩

/-- Claim C9: in every store state reachable through the exposed
operations (addListener, addProject, the no-op drop handler), every
stored project has status Active. -/
theorem reachable_projects_all_active (s : ProjectState) (h : Reachable s) :
    ∀ p ∈ s.projects, p.status = ProjectStatus.Active := by
  induction h with
  | init => intro p hp; simp at hp
  | step_addListener _ ih =>
      intro p hp
      exact ih p (by simpa [ProjectState.addListener] using hp)
  | step_addProject _ ih =>
      intro p hp
      simp [ProjectState.addProject] at hp
      rcases hp with hp | rfl
      · exact ih p hp
      · rfl
  | step_drop _ ih => exact ih

/-- Witness for C9: the head of the project list after one addProject on
the fresh store has status Active. -/
theorem reachable_projects_all_active_witness :
    ((ProjectState.addProject ⟨[], []⟩ "a" "T" "D" 3).fst.projects.headI).status
      = ProjectStatus.Active :=
  reachable_projects_all_active (ProjectState.addProject ⟨[], []⟩ "a" "T" "D" 3).fst
    (Reachable.step_addProject Reachable.init)
    ((ProjectState.addProject ⟨[], []⟩ "a" "T" "D" 3).fst.projects.headI) (by decide)

/-- Claim C10: the rendered h3 header text is persons + " assigned",
where a people count of 1 renders "1 Person assigned" and any other count
n renders n + " Persons assigned". -/
theorem projectItem_pluralizes_persons (project : Project) :
    (renderProjectItem project).h3 = ProjectItem.persons project ++ " assigned" ∧
    (project.people = 1 → (renderProjectItem project).h3 = "1 Person assigned") ∧
    (project.people ≠ 1 →
      (renderProjectItem project).h3 = toString project.people ++ " Persons assigned") := by
  refine ⟨rfl, ?_, ?_⟩
  · intro h
    simp [renderProjectItem, ProjectItem.persons, h]
  · intro h
    have h2 : (" Persons" : String) ++ " assigned" = " Persons assigned" := by decide
    simp [renderProjectItem, ProjectItem.persons, h, String.append_assoc, h2]

/-- Witness for C10 at people = 1 and people = 3. -/
theorem projectItem_pluralizes_persons_witness :
    (renderProjectItem ⟨"i", "t", "d", 1, ProjectStatus.Active⟩).h3
      = "1 Person assigned" ∧
    (renderProjectItem ⟨"i", "t", "d", 3, ProjectStatus.Active⟩).h3
      = toString (3 : Int) ++ " Persons assigned" := by
  have h1 := projectItem_pluralizes_persons ⟨"i", "t", "d", 1, ProjectStatus.Active⟩
  have h3 := projectItem_pluralizes_persons ⟨"i", "t", "d", 3, ProjectStatus.Active⟩
  exact ⟨h1.2.1 rfl, h3.2.2 (by decide)⟩
